import Mathlib

set_option maxRecDepth 100000

/-!
Verification of the Transaction Classification & Context-Selection Engine
of the financial-advisor agent (csv_utils.py and enhanced_csv_tool.py),
via a shallow embedding of the Python source into Lean.

Amounts are modelled exactly as integer cents (the source sums values with
two decimal places); pandas NaN/NaT cells are modelled as `Option.none`;
a Python function that can raise is modelled as returning `Except String`.
-/

namespace CsvEngine

/-- ASCII lower-casing of one character, as Python str.lower does on the
ASCII descriptions and questions handled by the engine. -/
def lowerChar (c : Char) : Char :=
  if 'A' ≤ c && c ≤ 'Z' then Char.ofNat (c.toNat + 32) else c

/-- Lower-case a string (Python str.lower on ASCII input). -/
def lcStr (s : String) : String :=
  String.mk (s.data.map lowerChar)

/-- Does the list `hay` start with the list `needle`? -/
def chStarts : List Char → List Char → Bool
  | [], _ => true
  | _ :: _, [] => false
  | a :: as, b :: bs => a == b && chStarts as bs

/-- Does `needle` occur as a contiguous sublist of `hay`? -/
def chHasSub (needle : List Char) : List Char → Bool
  | [] => chStarts needle []
  | h :: t => chStarts needle (h :: t) || chHasSub needle t

/-- Python `needle in hay` on strings: substring containment. -/
def pyIn (needle hay : String) : Bool :=
  chHasSub needle.data hay.data

end CsvEngine

namespace CsvEngine

/-- `TRANSACTION_CATEGORIES` of `TransactionAnalyzer`, an ordered list of
(category, keyword list) pairs in the declared dict order. -/
def TRANSACTION_CATEGORIES : List (String × List String) :=
  [("PAYMENT", ["upi", "pay", "sent", "transfer", "trf"]),
   ("BILL", ["bill", "utility", "electricity", "water", "gas", "internet"]),
   ("INCOME", ["salary", "interest", "credit", "received", "refund"]),
   ("SHOPPING", ["purchase", "shopping", "mart", "store", "shop"]),
   ("ENTERTAINMENT", ["movie", "restaurant", "dining", "cafe", "food"]),
   ("INVESTMENT", ["mutual fund", "stocks", "shares", "investment", "dividend"]),
   ("WITHDRAWAL", ["atm", "withdrawal", "cash"]),
   ("SUBSCRIPTION", ["subscription", "netflix", "amazon prime", "spotify"]),
   ("EMI", ["emi", "loan", "mortgage", "installment"]),
   ("TRAVEL", ["travel", "flight", "hotel", "bus", "train", "taxi", "uber"])]

/-- `type_indicators` of `TransactionAnalyzer._classify_transaction`, in
declared dict order. -/
def type_indicators : List (String × List String) :=
  [("BILL_PAYMENT", ["billpay", "bill payment", "utility"]),
   ("SALARY", ["salary", "sal cr", "monthly pay"]),
   ("INTEREST", ["interest", "int.", "int cr"]),
   ("ATM", ["atm", "cash withdrawal"]),
   ("TRANSFER", ["transfer", "trf", "neft", "rtgs", "imps"]),
   ("INVESTMENT", ["investment", "mutual fund", "shares"]),
   ("REFUND", ["refund", "cashback", "return"]),
   ("LOAN", ["loan", "emi", "mortgage"])]

/-- First label of the ordered rule list whose keyword group has a
substring match in `text`; `default` when none matches. -/
def firstMatch (rules : List (String × List String)) (text : String)
    (default : String) : String :=
  match rules with
  | [] => default
  | (label, kws) :: rest =>
      if kws.any (fun kw => pyIn kw text) then label
      else firstMatch rest text default

/-- `TransactionAnalyzer._classify_transaction`: a null description is
`UNKNOWN`; a description containing "upi" is `UPI_RECEIVED` when it also
contains one of received/credit/credited and `UPI_PAYMENT` otherwise;
otherwise the first matching `type_indicators` group wins, else `OTHER`. -/
def classify_transaction (text : Option String) : String :=
  match text with
  | none => "UNKNOWN"
  | some t =>
      let text := lcStr t
      if pyIn "upi" text then
        if ["received", "credit", "credited"].any (fun w => pyIn w text) then
          "UPI_RECEIVED"
        else "UPI_PAYMENT"
      else firstMatch type_indicators text "OTHER"

/-- `TransactionAnalyzer._categorize_transaction`: a null description is
`UNKNOWN`; otherwise the first matching `TRANSACTION_CATEGORIES` group
wins, else `OTHER`. -/
def categorize_transaction (text : Option String) : String :=
  match text with
  | none => "UNKNOWN"
  | some t =>
      let text := lcStr t
      firstMatch TRANSACTION_CATEGORIES text "OTHER"

/-- A calendar date as parsed from the `DD/MM/YY` source format. -/
structure Date where
  year : Nat
  month : Nat
  day : Nat
deriving DecidableEq, Repr

/-- Gregorian leap-year test. -/
def isLeap (y : Nat) : Bool :=
  y % 4 == 0 && (y % 100 != 0 || y % 400 == 0)

/-- Number of days in a month. -/
def daysInMonth (y m : Nat) : Nat :=
  if m == 2 then (if isLeap y then 29 else 28)
  else if m == 4 || m == 6 || m == 9 || m == 11 then 30
  else 31

/-- Decimal value of a digit run. -/
def digitsToNat (ds : List Char) : Nat :=
  ds.foldl (fun acc c => acc * 10 + (c.toNat - 48)) 0

/-- Parse a string in Python strptime format `%d/%m/%y`: one or two digits
for day and month, one or two digits for the two-digit year (pivot 69:
00-68 becomes 20xx, 69-99 becomes 19xx), the whole string consumed, and
the day valid for the month.  Failure is `none` (pandas `errors=coerce`
yields NaT; `datetime.strptime` raises, caught by the caller). -/
def parseDMY (s : String) : Option Date :=
  let cs := s.data
  let dds := cs.takeWhile Char.isDigit
  let r1 := cs.dropWhile Char.isDigit
  if dds.length == 0 || dds.length > 2 then none
  else match r1 with
    | '/' :: r1' =>
        let mds := r1'.takeWhile Char.isDigit
        let r2 := r1'.dropWhile Char.isDigit
        if mds.length == 0 || mds.length > 2 then none
        else match r2 with
          | '/' :: r2' =>
              let yds := r2'.takeWhile Char.isDigit
              let r3 := r2'.dropWhile Char.isDigit
              if yds.length == 0 || yds.length > 2 || !r3.isEmpty then none
              else
                let d := digitsToNat dds
                let m := digitsToNat mds
                let yy := digitsToNat yds
                let y := if yy ≤ 68 then 2000 + yy else 1900 + yy
                if 1 ≤ m && m ≤ 12 && 1 ≤ d && d ≤ daysInMonth y m then
                  some ⟨y, m, d⟩
                else none
          | _ => none
    | _ => none

/-- Day of week with pandas numbering (Monday = 0 … Sunday = 6), via
Zeller's congruence. -/
def dowPandas (d : Date) : Nat :=
  let m := if d.month ≤ 2 then d.month + 12 else d.month
  let y := if d.month ≤ 2 then d.year - 1 else d.year
  let K := y % 100
  let J := y / 100
  let h := (d.day + (13 * (m + 1)) / 5 + K + K / 4 + J / 4 + 5 * J) % 7
  (h + 5) % 7

/-- pandas `day_name()` for a pandas day-of-week number. -/
def dayName (dow : Nat) : String :=
  (["Monday", "Tuesday", "Wednesday", "Thursday", "Friday", "Saturday",
    "Sunday"]).getD dow ""

/-- Total order key on dates (used for min/max and descending sort). -/
def dateKey (d : Date) : Nat :=
  d.year * 10000 + d.month * 100 + d.day

/-- One raw input row of the analyzer's DataFrame: the three required
columns, with `none` for a NaN cell (`amount` is the already
numeric-coerced value in exact cents). -/
structure RawRow where
  dateValue : Option String
  mentionText : Option String
  amount : Option Int
deriving DecidableEq, Repr

/-- One row after `TransactionAnalyzer._preprocess_data`: the raw columns
plus every derived column the engine uses. -/
structure Row where
  dateValue : Option String
  mentionText : Option String
  amount : Option Int
  parsed_date : Option Date
  has_valid_date : Bool
  transaction_type : String
  transaction_category : String
  month_year : Option (Nat × Nat)
  day_of_week : Option String
  is_weekend : Bool
  is_credit : Bool
deriving DecidableEq, Repr

/-- Derived columns of `_preprocess_data` for one row: `parsed_date` by
`%d/%m/%y` coercion (NaT = `none`), classification of `mentionText`,
`month_year` and `day_of_week` from the parsed date (null on NaT), and
`is_weekend` via `dayofweek.isin([5, 6])` which is False on NaT. -/
def preprocessRow (r : RawRow) : Row :=
  let p := r.dateValue.bind parseDMY
  { dateValue := r.dateValue
    mentionText := r.mentionText
    amount := r.amount
    parsed_date := p
    has_valid_date := p.isSome
    transaction_type := classify_transaction r.mentionText
    transaction_category := categorize_transaction r.mentionText
    month_year := p.map (fun d => (d.year, d.month))
    day_of_week := p.map (fun d => dayName (dowPandas d))
    is_weekend := match p with
      | none => false
      | some d => dowPandas d == 5 || dowPandas d == 6
    is_credit := match r.amount with
      | none => false
      | some a => 0 < a }

/-- `TransactionAnalyzer._preprocess_data` over the whole DataFrame. -/
def preprocess_data (rs : List RawRow) : List Row :=
  rs.map preprocessRow

/-- The non-null amounts of a row list (pandas skips NaN in aggregates). -/
def amounts (rows : List Row) : List Int :=
  rows.filterMap (·.amount)

/-- pandas `Series.mean` over the amount column: NaN (here `none`) when no
non-null amount exists, else the exact rational mean. -/
def meanAmounts (rows : List Row) : Option ℚ :=
  let xs := amounts rows
  if xs.length == 0 then none
  else some ((xs.sum : ℚ) / (xs.length : ℚ))

/-- The non-null parsed dates of a row list. -/
def validDates (rows : List Row) : List Date :=
  rows.filterMap (·.parsed_date)

/-- pandas `Series.min` on `parsed_date`: NaT (`none`) when no valid date
exists. -/
def minDateOf (rows : List Row) : Option Date :=
  (validDates rows).foldl
    (fun acc d => match acc with
      | none => some d
      | some m => if dateKey d < dateKey m then some d else some m)
    none

/-- pandas `Series.max` on `parsed_date`: NaT (`none`) when no valid date
exists. -/
def maxDateOf (rows : List Row) : Option Date :=
  (validDates rows).foldl
    (fun acc d => match acc with
      | none => some d
      | some m => if dateKey m < dateKey d then some d else some m)
    none

/-- Left-pad to two digits. -/
def pad2 (n : Nat) : String :=
  if n < 10 then "0" ++ toString n else toString n

/-- Python `strftime('%d/%m/%Y')`. -/
def strftimeDMY (d : Date) : String :=
  pad2 d.day ++ "/" ++ pad2 d.month ++ "/" ++ toString d.year

/-- First-occurrence list of the distinct elements of a list. -/
def distinct [BEq α] (l : List α) : List α :=
  l.foldl (fun acc x => if acc.contains x then acc else acc ++ [x]) []

/-- pandas `value_counts().to_dict()`: distinct labels with their counts,
most frequent first. -/
def valueCounts (labels : List String) : List (String × Nat) :=
  List.insertionSort (fun a b => b.2 ≤ a.2)
    ((distinct labels).map (fun l => (l, labels.count l)))

/-- Lexicographic strict order on `(year, month)` period keys. -/
def pairLtB (a b : Nat × Nat) : Bool :=
  a.1 < b.1 || (a.1 == b.1 && a.2 < b.2)

/-- Lexicographic order on `(year, month)` period keys. -/
def pairLeB (a b : Nat × Nat) : Bool :=
  a.1 < b.1 || (a.1 == b.1 && a.2 ≤ b.2)

/-- Lexicographic order on strings (groupby sorts string keys). -/
def chLe : List Char → List Char → Bool
  | [], _ => true
  | _ :: _, [] => false
  | a :: as, b :: bs => a < b || (a == b && chLe as bs)

/-- Lexicographic order on strings, on `String`. -/
def strLeB (s t : String) : Bool :=
  chLe s.data t.data

/-- The rows of one `month_year` group. -/
def monthGroup (rows : List Row) (m : Nat × Nat) : List Row :=
  rows.filter (fun r => r.month_year == some m)

/-- The distinct non-null `month_year` keys in chronological order
(pandas groupby drops null keys and sorts the rest). -/
def sortedMonths (rows : List Row) : List (Nat × Nat) :=
  List.insertionSort (fun a b => pairLeB a b)
    (distinct (rows.filterMap (·.month_year)))

/-- `groupby('month_year')['amount'].agg(['count', 'sum', 'mean'])`:
per month, the count of non-null amounts, their sum and their mean. -/
def monthlyAverages (rows : List Row) :
    List ((Nat × Nat) × Nat × Int × Option ℚ) :=
  (sortedMonths rows).map (fun m =>
    (m, (amounts (monthGroup rows m)).length,
     (amounts (monthGroup rows m)).sum, meanAmounts (monthGroup rows m)))

/-- `weekend_avg`: mean amount over the rows the engine marks
`is_weekend`. -/
def weekendAvg (rows : List Row) : Option ℚ :=
  meanAmounts (rows.filter (·.is_weekend))

/-- `weekday_avg`: mean amount over the rows the engine does not mark
`is_weekend` (`~is_weekend`). -/
def weekdayAvg (rows : List Row) : Option ℚ :=
  meanAmounts (rows.filter (fun r => !r.is_weekend))

/-- The Statistics Summary built by
`TransactionAnalyzer._calculate_statistics`. -/
structure Stats where
  total_transactions : Nat
  date_range_start : String
  date_range_end : String
  total_credits : Int
  total_debits : Int
  transaction_types : List (String × Nat)
  categories : List (String × Nat)
  monthly_averages : List ((Nat × Nat) × Nat × Int × Option ℚ)
  weekend_avg : Option ℚ
  weekday_avg : Option ℚ
deriving DecidableEq, Repr

/-- `TransactionAnalyzer._calculate_statistics`.  The date-range bounds
call `strftime` on `parsed_date.min()` / `.max()`; when no valid date
exists (empty dataset or all dates unparseable) those are NaT and
`NaT.strftime` raises `ValueError`, modelled as `Except.error`. -/
def calculate_statistics (rows : List Row) : Except String Stats :=
  match minDateOf rows, maxDateOf rows with
  | some mn, some mx => Except.ok
      { total_transactions := rows.length
        date_range_start := strftimeDMY mn
        date_range_end := strftimeDMY mx
        total_credits := ((amounts rows).filter (fun a => 0 < a)).sum
        total_debits := ((amounts rows).filter (fun a => a < 0)).sum
        transaction_types := valueCounts (rows.map (·.transaction_type))
        categories := valueCounts (rows.map (·.transaction_category))
        monthly_averages := monthlyAverages rows
        weekend_avg := weekendAvg rows
        weekday_avg := weekdayAvg rows }
  | _, _ => Except.error "NaTType does not support strftime"

/-- `TransactionAnalyzer.__init__`: copy, validate, preprocess, compute
statistics (the copy means the caller's DataFrame is never mutated). -/
def mkAnalyzer (raws : List RawRow) : Except String (List Row × Stats) :=
  let rows := preprocess_data raws
  (calculate_statistics rows).map (fun s => (rows, s))

/-- Descending sort key on `parsed_date` with NaT placed last. -/
def sortKeyDesc (r : Row) : Int :=
  match r.parsed_date with
  | none => -1
  | some d => (dateKey d : Int)

/-- `sort_values('parsed_date', ascending=False)`. -/
def sortByDateDesc (rows : List Row) : List Row :=
  List.insertionSort (fun a b => sortKeyDesc b ≤ sortKeyDesc a) rows

/-- pandas `max` over the `month_year` column, skipping nulls; `none`
when no row has a month. -/
def maxMonthYear (rows : List Row) : Option (Nat × Nat) :=
  (rows.filterMap (·.month_year)).foldl
    (fun acc p => match acc with
      | none => some p
      | some m => if pairLtB m p then some p else some m)
    none

/-- The category loop of `get_context_for_llm`: for every declared
category whose lower-cased name occurs in the question, `sample` is
overwritten with the full DataFrame filtered to that category (note:
filtered from `self.df`, not from the current `sample`). -/
def catRefine (q : String) (rows sample0 : List Row) : List Row :=
  TRANSACTION_CATEGORIES.foldl
    (fun s c =>
      if pyIn (lcStr c.1) (lcStr q) then
        rows.filter (fun r => r.transaction_category == c.1)
      else s)
    sample0

/-- pandas `nlargest(n, 'amount')`: drop null amounts, sort descending
(stable), take `n`. -/
def nlargestAmount (n : Nat) (rows : List Row) : List Row :=
  (List.insertionSort
    (fun a b => (b.amount.getD 0) ≤ (a.amount.getD 0))
    (rows.filter (fun r => r.amount.isSome))).take n

/-- pandas `nsmallest(n, 'amount')`: drop null amounts, sort ascending
(stable), take `n`. -/
def nsmallestAmount (n : Nat) (rows : List Row) : List Row :=
  (List.insertionSort
    (fun a b => (a.amount.getD 0) ≤ (b.amount.getD 0))
    (rows.filter (fun r => r.amount.isSome))).take n

/-- The sample-selection logic of `get_context_for_llm`: time-based
branch ("recent" sorts, "last month" filters to the most recent
`month_year`), then the category loop, then value-based truncation
("highest"/"top" and "lowest" keep 5 rows). -/
def getSample (rows : List Row) (q : String) : List Row :=
  let s0 :=
    if pyIn "recent" (lcStr q) then sortByDateDesc rows
    else if pyIn "last month" (lcStr q) then
      match maxMonthYear rows with
      | none => []
      | some m => rows.filter (fun r => r.month_year == some m)
    else rows
  let s1 := catRefine q rows s0
  if pyIn "highest" (lcStr q) || pyIn "top" (lcStr q) then
    nlargestAmount 5 s1
  else if pyIn "lowest" (lcStr q) then nsmallestAmount 5 s1
  else s1

/-- The pattern-detection block of `get_context_for_llm`. -/
structure Patterns where
  monthly_trend : List ((Nat × Nat) × Int)
  category_distribution : List (String × Nat × Int)
  day_of_week_pattern : List (String × Option ℚ)
deriving DecidableEq, Repr

/-- `patterns` of `get_context_for_llm`: per-month amount sums,
per-category count/sum, per-day-name mean amount. -/
def computePatterns (rows : List Row) : Patterns :=
  { monthly_trend :=
      (sortedMonths rows).map (fun m => (m, (amounts (monthGroup rows m)).sum))
    category_distribution :=
      (List.insertionSort (fun a b => strLeB a b = true)
        (distinct (rows.map (·.transaction_category)))).map (fun c =>
          let g := rows.filter (fun r => r.transaction_category == c)
          (c, (amounts g).length, (amounts g).sum))
    day_of_week_pattern :=
      (List.insertionSort (fun a b => strLeB a b = true)
        (distinct (rows.filterMap (·.day_of_week)))).map (fun dn =>
          (dn, meanAmounts (rows.filter (fun r => r.day_of_week == some dn)))) }

/-- The Context Payload returned by `get_context_for_llm`. -/
structure ContextPayload where
  statistics : Stats
  question : String
  patterns : Option Patterns
  relevant_transactions : List Row
deriving Repr

/-- `TransactionAnalyzer.get_context_for_llm`: the statistics, the
question, the patterns block when the question mentions pattern/trend,
and the selected sample truncated by `head(10)`. -/
def get_context_for_llm (rows : List Row) (stats : Stats) (q : String) :
    ContextPayload :=
  { statistics := stats
    question := q
    patterns :=
      if pyIn "pattern" (lcStr q) || pyIn "trend" (lcStr q) then
        some (computePatterns rows)
      else none
    relevant_transactions := (getSample rows q).take 10 }

/-- Characters matched by the class `[\d,]` of the money regex. -/
def isClassCh (c : Char) : Bool :=
  c.isDigit || c == ','

/-- One attempted match of the regex `[\d,]+\.\d{2}` at the head of the
list: the greedy digit-and-comma run, a dot, two digits.  Returns the
matched value in exact cents (commas stripped, as
`float(m.replace(",", ""))` does) and the number of characters
consumed. -/
def matchAt (cs : List Char) : Option (Int × Nat) :=
  let run := cs.takeWhile isClassCh
  let rest := cs.dropWhile isClassCh
  if run.length == 0 then none
  else match rest with
    | '.' :: d1 :: d2 :: _ =>
        if d1.isDigit && d2.isDigit then
          some ((digitsToNat (run.filter Char.isDigit) : Int) * 100 +
                  (digitsToNat [d1, d2] : Int),
                run.length + 3)
        else none
    | _ => none

/-- Fuelled version of the `re.findall` scan: every step consumes at
least one character, so fuel equal to the list length is enough. -/
def scanMoneyF : Nat → List Char → Int
  | 0, _ => 0
  | _, [] => 0
  | fuel + 1, c :: cs =>
      match matchAt (c :: cs) with
      | some (v, k) => v + scanMoneyF fuel (cs.drop (k - 1))
      | none => scanMoneyF fuel cs

/-- `re.findall` scan for `[\d,]+\.\d{2}`, summing the matched values:
left to right, non-overlapping, advancing one character on failure. -/
def scanMoney (cs : List Char) : Int :=
  scanMoneyF cs.length cs

/-- Fuelled Python `str.replace`: replace all non-overlapping
occurrences of `pat` left to right; every step consumes at least one
character, so fuel equal to the list length is enough. -/
def replaceF : Nat → List Char → List Char → List Char → List Char
  | 0, s, _, _ => s
  | _, [], _, _ => []
  | fuel + 1, c :: cs, pat, rep =>
      if chStarts pat (c :: cs) then
        rep ++ replaceF fuel ((c :: cs).drop pat.length) pat rep
      else c :: replaceF fuel cs pat rep

/-- Python `s.replace(pat, rep)`. -/
def pyReplace (s pat rep : String) : String :=
  String.mk (replaceF s.data.length s.data pat.data rep.data)

/-- `extract_money` of `answer_csv_question`: 0 for a NaN cell, else the
sum of all decimal-with-two-places substrings of the text. -/
def extract_money (text : Option String) : Int :=
  match text with
  | none => 0
  | some s => scanMoney s.data

/-- Insert a comma after every three characters of a reversed digit
string (thousands grouping from the right). -/
def groupAux : List Char → List Char
  | a :: b :: c :: d :: rest => a :: b :: c :: ',' :: groupAux (d :: rest)
  | l => l

/-- Python thousands grouping of a digit string. -/
def groupDigits (s : String) : String :=
  String.mk ((groupAux s.data.reverse).reverse)

/-- Python `format(n, ',')` on a natural number. -/
def fmtNatGrouped (n : Nat) : String :=
  groupDigits (toString n)

/-- Python `format(x, ',.2f')` on an exact amount in cents. -/
def fmtMoney (cents : Int) : String :=
  let a := cents.natAbs
  (if cents < 0 then "-" else "") ++ fmtNatGrouped (a / 100) ++ "." ++
    pad2 (a % 100)

/-- One row of the DataFrame handed to `answer_csv_question`:
`moneyValue` is the numeric-coerced cell in exact cents (`none` = NaN). -/
structure CRow where
  dateValue : Option String
  mentionText : Option String
  moneyValue : Option Int
deriving DecidableEq, Repr

/-- The DataFrame handed to `answer_csv_question`: its rows, which of
the three columns are present, and the `_year` column (absent on input,
added by the yearly-breakdown branch). -/
structure DF where
  rows : List CRow
  hasMoneyCol : Bool
  hasMentionCol : Bool
  hasDateCol : Bool
  yearCol : Option (List (Option Nat))
deriving DecidableEq, Repr

/-- `extract_year` of `answer_csv_question`: `strptime(str(val),
"%d/%m/%y").year`, `None` on failure (a NaN cell stringifies to "nan"
and fails). -/
def extract_year (v : Option String) : Option Nat :=
  (v.bind parseDMY).map (·.year)

/-- The money total of `answer_csv_question`: per row, `moneyValue`
with NaN as 0, plus the free-text extraction from `mentionText` when
that column exists; summed (pandas `sum` skips NaN). -/
def totalMoney (df : DF) : Int :=
  (df.rows.map (fun r =>
    r.moneyValue.getD 0 +
      (if df.hasMentionCol then extract_money r.mentionText else 0))).sum

/-- Insert into a descending-sorted list, keeping it descending. -/
def insertDesc (x : Nat) : List Nat → List Nat
  | [] => [x]
  | y :: ys => if y ≤ x then x :: y :: ys else y :: insertDesc x ys

/-- Python `sorted(l, reverse=True)` on naturals. -/
def sortDesc (l : List Nat) : List Nat :=
  l.foldr insertDesc []

/-- The at-most-3 most recent distinct parsed years:
`sorted(years.unique() minus None, reverse=True)[:3]`. -/
def recentYears (df : DF) : List Nat :=
  (sortDesc
    (distinct (df.rows.filterMap (fun r => extract_year r.dateValue)))).take 3

/-- Per-year sum: numeric `moneyValue` over the rows of that year plus,
when the `mentionText` column exists, their free-text extraction. -/
def yearSum (df : DF) (y : Nat) : Int :=
  let g := df.rows.filter (fun r => extract_year r.dateValue == some y)
  (g.filterMap (·.moneyValue)).sum +
    (if df.hasMentionCol then (g.map (fun r => extract_money r.mentionText)).sum
     else 0)

/-- One line of the yearly breakdown. -/
def yearLine (df : DF) (y : Nat) : String :=
  toString y ++ ": **₹" ++ fmtMoney (yearSum df y) ++ "** INR"

/-- The question normalization of `answer_csv_question`. -/
def normQ (q : String) : String :=
  pyReplace (pyReplace (pyReplace (lcStr q) "spent" "spend") "so far" "")
    "so dar" ""

/-- The total/sum/spend/amount/inr branch condition. -/
def totalCond (qn : String) : Bool :=
  pyIn "total" qn || pyIn "sum" qn || pyIn "spend" qn ||
    pyIn "amount" qn || pyIn "inr" qn

/-- The "count" branch condition. -/
def countCond (qn : String) : Bool :=
  pyIn "count" qn

/-- The yearly-breakdown branch condition. -/
def yearlyCond (qn : String) : Bool :=
  (pyIn "per year" qn || pyIn "yearly" qn || pyIn "each year" qn) &&
    (pyIn "last 3" qn || pyIn "past 3" qn || pyIn "three year" qn)

/-- The fixed answer of the total branch. -/
def totalAnswer (total : Int) : String :=
  "Based on your transaction records, the total money value is: **₹" ++
    fmtMoney total ++ "** INR.\n\n" ++
    "This includes all amounts found in both structured and unstructured " ++
    "fields of your CSV. If you need a breakdown or more details, just ask!"

/-- The fixed answer of the count branch. -/
def countAnswer (n : Nat) : String :=
  "You have **" ++ fmtNatGrouped n ++
    "** transactions recorded in your CSV.\n\n" ++
    "Let me know if you want to analyze a specific type or time period!"

/-- The yearly-breakdown answer. -/
def yearlyAnswer (breakdown : List String) : String :=
  "Here is your spending per year for the last 3 years (from your CSV):\n\n"
    ++ String.intercalate "\n" breakdown ++
    "\n\nLet me know if you want a different breakdown or more details!"

/-- The answer when the `dateValue` column is absent. -/
def noYearsAnswer : String :=
  "Sorry, I couldn\x27t extract years from your data. Please ensure " ++
    "\x27dateValue\x27 column is present and formatted as DD/MM/YY."

/-- The fixed could-not-understand fallback. -/
def fallbackAnswer : String :=
  "I\x27m sorry, I couldn\x27t understand your question. " ++
    "Please ask about totals, counts, or specify a column or type of " ++
    "transaction you want to analyze."

/-- `answer_csv_question` of csv_utils.py.  `df["moneyValue"]` is read
unconditionally first, so a DataFrame without that column raises
`KeyError` (modelled as `Except.error`).  The yearly branch with a
`dateValue` column assigns `df["_year"] = years`, mutating the caller's
DataFrame; the returned `DF` is the state of the caller's DataFrame
after the call. -/
def answer_csv_question (df : DF) (q : String) :
    Except String (String × DF) :=
  if !df.hasMoneyCol then Except.error "KeyError: \x27moneyValue\x27"
  else
    let total := totalMoney df
    let qn := normQ q
    if totalCond qn then Except.ok (totalAnswer total, df)
    else if countCond qn then Except.ok (countAnswer df.rows.length, df)
    else if yearlyCond qn then
      if df.hasDateCol then
        let df' := { df with
          yearCol := some (df.rows.map (fun r => extract_year r.dateValue)) }
        Except.ok (yearlyAnswer ((recentYears df).map (yearLine df)), df')
      else Except.ok (noYearsAnswer, df)
    else Except.ok (fallbackAnswer, df)

/-- The category the category loop of `get_context_for_llm` ends up
filtering by: the last declared category whose lower-cased name occurs
in the question, `none` when no category name occurs. -/
def lastCatMatch (q : String) : Option String :=
  TRANSACTION_CATEGORIES.foldl
    (fun acc c => if pyIn (lcStr c.1) (lcStr q) then some c.1 else acc)
    none

/-- Two-row fixture: a May PAYMENT transaction and a June BILL
transaction. -/
def rawsC1 : List RawRow :=
  [⟨some "01/05/25", some "upi sent to bob", some (-100)⟩,
   ⟨some "01/06/25", some "electricity bill", some (-200)⟩]

/-- An arbitrary statistics value (the sample selection does not read
the statistics). -/
def statsC1 : Stats :=
  ⟨0, "", "", 0, 0, [], [], [], none, none⟩

/-- Two-row fixture: a valid Monday transaction and one with an
unparseable date. -/
def rawsC5 : List RawRow :=
  [⟨some "02/06/25", some "x", some 1000⟩,
   ⟨some "garbage", some "y", some 3000⟩]

/-- The spec's four-row direct-answer fixture with amounts
-500.00, 5000.00, -199.00, -1000.00 (in cents). -/
def dfC4 : DF :=
  { rows :=
      [⟨some "01/06/25", some "UPI payment to grocery store", some (-50000)⟩,
       ⟨some "02/06/25", some "Salary credit", some 500000⟩,
       ⟨some "03/06/25", some "Netflix subscription", some (-19900)⟩,
       ⟨some "04/06/25", some "ATM withdrawal", some (-100000)⟩],
    hasMoneyCol := true, hasMentionCol := true, hasDateCol := true,
    yearCol := none }

/-- One-row fixture whose date parses under no `%d/%m/%y` reading. -/
def dfC6 : DF :=
  { rows := [⟨some "garbage", none, some 100⟩],
    hasMoneyCol := true, hasMentionCol := false, hasDateCol := true,
    yearCol := none }

/-- One-row fixture with a parsable date. -/
def dfC6w : DF :=
  { rows := [⟨some "01/06/25", none, some 100⟩],
    hasMoneyCol := true, hasMentionCol := false, hasDateCol := true,
    yearCol := none }

/-- One-row fixture for observing the `_year` column assignment. -/
def dfC8 : DF :=
  { rows := [⟨some "15/07/24", none, some 2500⟩],
    hasMoneyCol := true, hasMentionCol := false, hasDateCol := true,
    yearCol := none }

end CsvEngine

namespace CsvEngine

theorem mem_insertDesc {x z : Nat} {l : List Nat} :
    z ∈ insertDesc x l ↔ z = x ∨ z ∈ l := by
  induction l with
  | nil => simp [insertDesc]
  | cons y ys ih =>
      simp only [insertDesc]
      split
      · simp [List.mem_cons]
      · simp only [List.mem_cons, ih]
        tauto

theorem sorted_insertDesc {x : Nat} {l : List Nat}
    (h : l.Sorted (fun a b => a ≥ b)) :
    (insertDesc x l).Sorted (fun a b => a ≥ b) := by
  induction l with
  | nil => simp [insertDesc]
  | cons y ys ih =>
      rw [List.sorted_cons] at h
      simp only [insertDesc]
      split
      · rename_i hyx
        rw [List.sorted_cons]
        refine ⟨?_, by rw [List.sorted_cons]; exact h⟩
        intro b hb
        rcases List.mem_cons.mp hb with rfl | hb
        · exact hyx
        · exact le_trans (h.1 b hb) hyx
      · rename_i hyx
        rw [List.sorted_cons]
        refine ⟨?_, ih h.2⟩
        intro b hb
        rcases mem_insertDesc.mp hb with rfl | hb
        · exact Nat.le_of_not_le hyx
        · exact h.1 b hb

theorem sorted_sortDesc (l : List Nat) :
    (sortDesc l).Sorted (fun a b => a ≥ b) := by
  induction l with
  | nil => simp [sortDesc]
  | cons y ys ih => exact sorted_insertDesc ih

theorem nodup_insertDesc {x : Nat} {l : List Nat} (hx : x ∉ l)
    (h : l.Nodup) : (insertDesc x l).Nodup := by
  induction l with
  | nil => simp [insertDesc]
  | cons y ys ih =>
      rw [List.nodup_cons] at h
      simp only [insertDesc]
      split
      · rw [List.nodup_cons, List.nodup_cons]
        refine ⟨?_, h⟩
        intro hmem
        rcases List.mem_cons.mp hmem with rfl | hmem
        · exact hx (List.mem_cons_self _ _)
        · exact hx (List.mem_cons_of_mem _ hmem)
      · rw [List.nodup_cons]
        refine ⟨?_, ih (fun hm => hx (List.mem_cons_of_mem _ hm)) h.2⟩
        intro hmem
        rcases mem_insertDesc.mp hmem with rfl | hmem
        · exact hx (List.mem_cons_self _ _)
        · exact h.1 hmem

theorem mem_sortDesc {z : Nat} {l : List Nat} :
    z ∈ sortDesc l ↔ z ∈ l := by
  induction l with
  | nil => simp [sortDesc]
  | cons y ys ih =>
      show z ∈ insertDesc y (sortDesc ys) ↔ _
      rw [mem_insertDesc, ih]
      simp [List.mem_cons]

theorem nodup_sortDesc {l : List Nat} (h : l.Nodup) :
    (sortDesc l).Nodup := by
  induction l with
  | nil => simp [sortDesc]
  | cons y ys ih =>
      rw [List.nodup_cons] at h
      show (insertDesc y (sortDesc ys)).Nodup
      exact nodup_insertDesc (fun hm => h.1 (mem_sortDesc.mp hm)) (ih h.2)

end CsvEngine

namespace CsvEngine

theorem nodup_distinct_aux {α : Type} [BEq α] [LawfulBEq α]
    (l acc : List α) (h : acc.Nodup) :
    (l.foldl (fun acc x => if acc.contains x then acc else acc ++ [x])
      acc).Nodup := by
  induction l generalizing acc with
  | nil => simpa
  | cons x xs ih =>
      rw [List.foldl_cons]
      by_cases hc : acc.contains x = true
      · rw [if_pos hc]
        exact ih acc h
      · rw [if_neg hc]
        refine ih _ ?_
        rw [List.nodup_append]
        refine ⟨h, List.nodup_singleton x, ?_⟩
        intro a ha hb
        rw [List.mem_singleton] at hb
        subst hb
        have hnm : a ∉ acc := by simpa using hc
        exact hnm ha

theorem nodup_distinct {α : Type} [BEq α] [LawfulBEq α] (l : List α) :
    (distinct l).Nodup :=
  nodup_distinct_aux l [] List.nodup_nil

theorem recentYears_sorted (df : DF) :
    List.Sorted (fun a b => a > b) (recentYears df) ∧
      (recentYears df).length ≤ 3 := by
  constructor
  · have hge :
        List.Sorted (fun a b => a ≥ b)
          (sortDesc (distinct (df.rows.filterMap
            (fun r => extract_year r.dateValue)))) :=
      sorted_sortDesc _
    have hnd :
        (sortDesc (distinct (df.rows.filterMap
          (fun r => extract_year r.dateValue)))).Nodup :=
      nodup_sortDesc (nodup_distinct _)
    have hcomb := (List.Pairwise.and hge hnd).sublist
      (List.take_sublist 3 _)
    refine hcomb.imp ?_
    intro a b hab
    exact Nat.lt_of_le_of_ne hab.1 (Ne.symm hab.2)
  · exact List.length_take_le 3 _

end CsvEngine

namespace CsvEngine

/-- C10: a record whose description is null or missing is classified
`UNKNOWN` for both `transaction_type` and `transaction_category`,
before any keyword rule is tested. -/
theorem c10_null_description_unknown :
    classify_transaction none = "UNKNOWN" ∧
      categorize_transaction none = "UNKNOWN" :=
  ⟨rfl, rfl⟩

/-- C2: on the empty dataset, `_calculate_statistics` does not return a
zero-count summary with null date bounds: it raises (`parsed_date.min()`
is NaT and `NaT.strftime` raises ValueError), modelled as
`Except.error`.  This evaluates the code at the failing input of the
code-bug report. -/
theorem c2_empty_dataset_statistics_raises :
    mkAnalyzer [] = Except.error "NaTType does not support strftime" ∧
      calculate_statistics (preprocess_data []) =
        Except.error "NaTType does not support strftime" :=
  ⟨rfl, rfl⟩

/-- C7: for every dataset and every question, the Context Payload's
`relevant_transactions` sample has length at most 10. -/
theorem c7_sample_bounded (rows : List Row) (stats : Stats) (q : String) :
    (get_context_for_llm rows stats q).relevant_transactions.length ≤ 10 := by
  simp only [get_context_for_llm]
  exact List.length_take_le 10 _

/-- C9: for every description whose lower-cased text contains "upi", the
classifier returns `UPI_RECEIVED` when the text also contains one of
received/credit/credited and `UPI_PAYMENT` otherwise, regardless of any
other keyword-group match. -/
theorem c9_upi_classification (s : String)
    (h : pyIn "upi" (lcStr s) = true) :
    classify_transaction (some s) =
      if ["received", "credit", "credited"].any
          (fun w => pyIn w (lcStr s)) then "UPI_RECEIVED"
      else "UPI_PAYMENT" := by
  simp only [classify_transaction, h, if_true]

/-- Witness for C9 at the description "UPI received from Alice". -/
theorem c9_upi_classification_witness :
    pyIn "upi" (lcStr "UPI received from Alice") = true ∧
      classify_transaction (some "UPI received from Alice") =
        (if ["received", "credit", "credited"].any
            (fun w => pyIn w (lcStr "UPI received from Alice")) then
          "UPI_RECEIVED"
        else "UPI_PAYMENT") :=
  ⟨by decide, c9_upi_classification "UPI received from Alice" (by decide)⟩

end CsvEngine

namespace CsvEngine

theorem preprocess_weekend_valid (r : RawRow) :
    ((preprocessRow r).has_valid_date && (preprocessRow r).is_weekend) =
      (preprocessRow r).is_weekend := by
  simp only [preprocessRow]
  cases r.dateValue.bind parseDMY <;> simp

/-- C5 counterexample: on a dataset with one valid Monday record
(amount 10.00) and one record with unparseable date (amount 30.00), the
weekday average is 20.00 — the null-date record contributes to it —
whereas the mean over valid-date weekday records alone is 10.00.  The
claim that a record with unparseable date contributes to neither
average is therefore false. -/
theorem c5_counterexample :
    weekdayAvg (preprocess_data rawsC5) = some 2000 ∧
      meanAmounts ((preprocess_data rawsC5).filter
        (fun r => r.has_valid_date && !r.is_weekend)) = some 1000 := by
  constructor
  · unfold weekdayAvg meanAmounts
    rw [show amounts ((preprocess_data rawsC5).filter
        (fun r => !r.is_weekend)) = [1000, 3000] from by decide]
    norm_num
  · unfold meanAmounts
    rw [show amounts ((preprocess_data rawsC5).filter
        (fun r => r.has_valid_date && !r.is_weekend)) = [1000] from by decide]
    norm_num

/-- C5 amended: the weekend average is computed only over records with
non-null `parsed_date` (being marked weekend forces a valid date), but
the weekday average is the mean over all records not marked weekend,
which includes every record with null `parsed_date`. -/
theorem c5_amended_weekend_only_valid (raws : List RawRow) :
    weekendAvg (preprocess_data raws) =
      meanAmounts ((preprocess_data raws).filter
        (fun r => r.has_valid_date && r.is_weekend)) ∧
    weekdayAvg (preprocess_data raws) =
      meanAmounts ((preprocess_data raws).filter (fun r => !r.is_weekend)) := by
  constructor
  · unfold weekendAvg
    congr 1
    refine List.filter_congr ?_
    intro x hx
    obtain ⟨r, _, rfl⟩ := List.mem_map.mp hx
    exact (preprocess_weekend_valid r).symm
  · rfl

end CsvEngine

namespace CsvEngine

theorem catFold (q : String) (rows : List Row)
    (L : List (String × List String)) (s0 : List Row)
    (acc : Option String) :
    (L.foldl (fun s c =>
        if pyIn (lcStr c.1) (lcStr q) then
          rows.filter (fun r => r.transaction_category == c.1)
        else s)
      (match acc with
       | none => s0
       | some c => rows.filter (fun r => r.transaction_category == c))) =
    (match L.foldl (fun a c =>
        if pyIn (lcStr c.1) (lcStr q) then some c.1 else a) acc with
     | none => s0
     | some c => rows.filter (fun r => r.transaction_category == c)) := by
  induction L generalizing acc with
  | nil => rfl
  | cons hd tl ih =>
      simp only [List.foldl_cons]
      by_cases hc : pyIn (lcStr hd.1) (lcStr q) = true
      · rw [if_pos hc, if_pos hc]
        exact ih (some hd.1)
      · rw [if_neg hc, if_neg hc]
        exact ih acc

theorem catRefine_lastMatch (q : String) (rows s0 : List Row) (c : String)
    (h : lastCatMatch q = some c) :
    catRefine q rows s0 =
      rows.filter (fun r => r.transaction_category == c) := by
  have h2 := catFold q rows TRANSACTION_CATEGORIES s0 none
  simp only [lastCatMatch] at h
  rw [h] at h2
  exact h2

/-- C1 counterexample: on a dataset with a May PAYMENT record and a June
BILL record, the question "payment last month" selects the May PAYMENT
record — the category loop filters the full DataFrame, discarding the
last-month filter — so the sample is not restricted to the most recent
`month_period` ((2025, 6) here), contradicting the claimed
time-filter-then-category-filter composition. -/
theorem c1_counterexample :
    (get_context_for_llm (preprocess_data rawsC1) statsC1
        "payment last month").relevant_transactions.map
        (fun r => (r.month_year, r.transaction_category)) =
      [(some (2025, 5), "PAYMENT")] ∧
      maxMonthYear (preprocess_data rawsC1) = some (2025, 6) := by
  constructor <;> decide

/-- C1 amended: when the question sets both the last-month signal and a
category signal (and no ranking signal), the category filter is applied
to the full dataset and replaces the time filter: `sample_records` is
the whole DataFrame filtered to the last matching category, truncated
to 10 — not the intersection with the most recent `month_period`. -/
theorem c1_amended_category_replaces_time (rows : List Row)
    (stats : Stats) (q c : String)
    (_htime : pyIn "last month" (lcStr q) = true)
    (hcat : lastCatMatch q = some c)
    (h1 : pyIn "highest" (lcStr q) = false)
    (h2 : pyIn "top" (lcStr q) = false)
    (h3 : pyIn "lowest" (lcStr q) = false) :
    (get_context_for_llm rows stats q).relevant_transactions =
      (rows.filter (fun r => r.transaction_category == c)).take 10 := by
  simp only [get_context_for_llm, getSample, h1, h2, h3, Bool.or_self,
    Bool.false_eq_true, if_false]
  rw [catRefine_lastMatch q rows _ c hcat]

/-- Witness for C1 amended at the question "payment last month" on the
two-row fixture. -/
theorem c1_amended_witness :
    pyIn "last month" (lcStr "payment last month") = true ∧
      lastCatMatch "payment last month" = some "PAYMENT" ∧
      (get_context_for_llm (preprocess_data rawsC1) statsC1
          "payment last month").relevant_transactions =
        ((preprocess_data rawsC1).filter
          (fun r => r.transaction_category == "PAYMENT")).take 10 :=
  ⟨by decide, by decide,
    c1_amended_category_replaces_time _ statsC1 _ "PAYMENT" (by decide)
      (by decide) (by decide) (by decide) (by decide)⟩

end CsvEngine

namespace CsvEngine

/-- C4 counterexample: on the four-row fixture the total branch fires and
the sum is 3301.00, but the formatted answer uses Python thousands
grouping, so the returned string does not contain the literal
"3301.00". -/
theorem c4_counterexample :
    (answer_csv_question dfC4 "What\x27s my total spend?").map
        (fun p => pyIn "3301.00" p.1) = Except.ok false :=
  rfl

/-- C4 amended: the answer on the four-row fixture is the total of all
amounts, credits and debits together — 3301.00, i.e. 330100 cents —
rendered with a thousands separator, so the string contains
"3,301.00". -/
theorem c4_amended_total_with_separator :
    (answer_csv_question dfC4 "What\x27s my total spend?").map
        (fun p => pyIn "3,301.00" p.1) = Except.ok true ∧
      totalMoney dfC4 = 330100 :=
  ⟨rfl, rfl⟩

/-- C3 counterexample: a DataFrame without a `moneyValue` column makes
`answer_csv_question` raise `KeyError` on its first line, for any
question — even an unrecognized one — so it does not hold for every
input DataFrame. -/
theorem c3_counterexample :
    answer_csv_question ⟨[], false, false, false, none⟩ "Tell me a joke" =
      Except.error "KeyError: \x27moneyValue\x27" :=
  rfl

/-- C3 amended: for every DataFrame that has a `moneyValue` column,
`answer_csv_question` always returns a string (never raises), and on a
question matching none of the total/count/yearly rules it returns the
fixed could-not-understand fallback with the DataFrame unchanged. -/
theorem c3_amended_total_requires_money_col (df : DF) (q : String)
    (h : df.hasMoneyCol = true) :
    (∃ s df2, answer_csv_question df q = Except.ok (s, df2)) ∧
      (totalCond (normQ q) = false → countCond (normQ q) = false →
        yearlyCond (normQ q) = false →
        answer_csv_question df q = Except.ok (fallbackAnswer, df)) := by
  constructor
  · unfold answer_csv_question
    rw [h]
    simp only [Bool.not_true, Bool.false_eq_true, if_false]
    split
    · exact ⟨_, _, rfl⟩
    · split
      · exact ⟨_, _, rfl⟩
      · split
        · split
          · exact ⟨_, _, rfl⟩
          · exact ⟨_, _, rfl⟩
        · exact ⟨_, _, rfl⟩
  · intro h1 h2 h3
    simp [answer_csv_question, h, h1, h2, h3]

/-- Witness for C3 amended on an empty DataFrame with a `moneyValue`
column and the unrecognized question "Tell me a joke". -/
theorem c3_amended_witness :
    (⟨[], true, false, false, none⟩ : DF).hasMoneyCol = true ∧
      ((∃ s df2, answer_csv_question ⟨[], true, false, false, none⟩
          "Tell me a joke" = Except.ok (s, df2)) ∧
        (totalCond (normQ "Tell me a joke") = false →
          countCond (normQ "Tell me a joke") = false →
          yearlyCond (normQ "Tell me a joke") = false →
          answer_csv_question ⟨[], true, false, false, none⟩
              "Tell me a joke" =
            Except.ok (fallbackAnswer, ⟨[], true, false, false, none⟩))) :=
  ⟨rfl, c3_amended_total_requires_money_col _ _ rfl⟩

end CsvEngine

namespace CsvEngine

/-- C6 counterexample: on a one-row DataFrame whose `dateValue` column
is present but whose date parses under no `%d/%m/%y` reading, a
"per year, last 3 years" question does not produce the explanatory
fallback — the year list is simply empty and the breakdown answer is
returned with no year lines (and the `_year` column is still added). -/
theorem c6_counterexample :
    answer_csv_question dfC6 "per year, last 3 years" =
      Except.ok (yearlyAnswer [], { dfC6 with yearCol := some [none] }) ∧
      yearlyAnswer [] ≠ noYearsAnswer := by
  constructor
  · rfl
  · decide

/-- C6 amended: on a yearly-breakdown question (with a `moneyValue`
column, and no earlier branch matching), when the `dateValue` column is
present the answer lists per-year sums over `recentYears` — the at most
3 most recent distinct parsable years, strictly descending, so
most-recent-year first (an empty list when no date parses); the
explanatory fallback is returned exactly when the `dateValue` column is
absent. -/
theorem c6_amended_yearly_breakdown (df : DF) (q : String)
    (hm : df.hasMoneyCol = true)
    (h1 : totalCond (normQ q) = false)
    (h2 : countCond (normQ q) = false)
    (h3 : yearlyCond (normQ q) = true) :
    (df.hasDateCol = true →
      answer_csv_question df q =
        Except.ok (yearlyAnswer ((recentYears df).map (yearLine df)),
          { df with
            yearCol := some (df.rows.map (fun r => extract_year r.dateValue)) }) ∧
        List.Sorted (fun a b => a > b) (recentYears df) ∧
        (recentYears df).length ≤ 3) ∧
    (df.hasDateCol = false →
      answer_csv_question df q = Except.ok (noYearsAnswer, df)) := by
  constructor
  · intro hd
    refine ⟨?_, (recentYears_sorted df).1, (recentYears_sorted df).2⟩
    simp [answer_csv_question, hm, h1, h2, h3, hd]
  · intro hd
    simp [answer_csv_question, hm, h1, h2, h3, hd]

/-- Witness for C6 amended on a one-row DataFrame with a parsable date
and the question "per year, last 3 years". -/
theorem c6_amended_witness :
    dfC6w.hasMoneyCol = true ∧
      totalCond (normQ "per year, last 3 years") = false ∧
      countCond (normQ "per year, last 3 years") = false ∧
      yearlyCond (normQ "per year, last 3 years") = true ∧
      ((dfC6w.hasDateCol = true →
        answer_csv_question dfC6w "per year, last 3 years" =
          Except.ok
            (yearlyAnswer ((recentYears dfC6w).map (yearLine dfC6w)),
              { dfC6w with
                yearCol :=
                  some (dfC6w.rows.map (fun r => extract_year r.dateValue)) }) ∧
          List.Sorted (fun a b => a > b) (recentYears dfC6w) ∧
          (recentYears dfC6w).length ≤ 3) ∧
      (dfC6w.hasDateCol = false →
        answer_csv_question dfC6w "per year, last 3 years" =
          Except.ok (noYearsAnswer, dfC6w))) :=
  ⟨rfl, by decide, by decide, by decide,
    c6_amended_yearly_breakdown dfC6w _ rfl (by decide) (by decide)
      (by decide)⟩

/-- C8 counterexample: `answer_csv_question` on a yearly-breakdown
question with a `dateValue` column assigns `df["_year"] = years`: the
caller's DataFrame after the call carries a `_year` column and differs
from the input, so the no-mutation claim is false. -/
theorem c8_counterexample :
    answer_csv_question dfC8 "per year, last 3 years" =
      Except.ok (yearlyAnswer [yearLine dfC8 2024],
        { dfC8 with yearCol := some [some 2024] }) ∧
      ({ dfC8 with yearCol := some [some 2024] } : DF) ≠ dfC8 := by
  constructor
  · rfl
  · decide

/-- C8 amended: `answer_csv_question` leaves the caller's DataFrame
unchanged on every path except the yearly-breakdown branch with a
`dateValue` column present (where it adds the `_year` column);
`TransactionAnalyzer.__init__` works on a copy and never mutates its
input. -/
theorem c8_amended_mutation_only_yearly (df : DF) (q : String)
    (hm : df.hasMoneyCol = true)
    (h : totalCond (normQ q) = true ∨ countCond (normQ q) = true ∨
         yearlyCond (normQ q) = false ∨ df.hasDateCol = false) :
    (answer_csv_question df q).map (fun p => p.2) = Except.ok df := by
  unfold answer_csv_question
  rw [hm]
  simp only [Bool.not_true, Bool.false_eq_true, if_false]
  cases htc : totalCond (normQ q) with
  | true => simp only [htc, if_true]; rfl
  | false =>
      cases hcc : countCond (normQ q) with
      | true => simp only [htc, hcc, Bool.false_eq_true, if_false, if_true]; rfl
      | false =>
          cases hyc : yearlyCond (normQ q) with
          | false =>
              simp only [htc, hcc, hyc, Bool.false_eq_true, if_false]
              rfl
          | true =>
              cases hdc : df.hasDateCol with
              | false =>
                  simp only [htc, hcc, hyc, hdc, Bool.false_eq_true,
                    if_false, if_true]
                  rfl
              | true => rcases h with h | h | h | h <;> simp_all

/-- Witness for C8 amended on a question that matches no branch. -/
theorem c8_amended_witness :
    (⟨[], true, false, false, none⟩ : DF).hasMoneyCol = true ∧
      yearlyCond (normQ "Tell me a joke") = false ∧
      (answer_csv_question ⟨[], true, false, false, none⟩
          "Tell me a joke").map (fun p => p.2) =
        Except.ok ⟨[], true, false, false, none⟩ :=
  ⟨rfl, by decide,
    c8_amended_mutation_only_yearly _ _ rfl
      (Or.inr (Or.inr (Or.inl (by decide))))⟩

end CsvEngine
